import Mathlib

/-!
Verification of `csv_to_excel_converter.py` (class `CSVToExcelConverter`).

The Python program is shallowly embedded: the pandas data frame becomes an
explicit `Table` (a list of typed columns), each sheet generator becomes a
pure function producing a write log of cells, and the orchestrator `convert`
becomes explicit sequencing over fallible stages.  Python floats are modelled
as exact rationals (`ℚ`, with `Option ℚ` where NaN can arise); the format
specifier `"%.2f"` is modelled as exact decimal rounding with ties to even,
and `str` on numbers by an explicit digit renderer.
-/

set_option autoImplicit false

namespace CsvXl

/-! ## Definitions -/

/-! ### Digit rendering (model of Python `str` on numbers) -/

/-- Decimal digits, fuelled to keep the recursion structural (`n + 1` units
of fuel always suffice since `n < 10 ^ (n + 1)`). -/
def natCharsAux : Nat → Nat → List Char
  | 0, _ => []
  | fuel + 1, n =>
    if n < 10 then [Nat.digitChar n]
    else natCharsAux fuel (n / 10) ++ [Nat.digitChar (n % 10)]

/-- Decimal digits of a natural number, most significant first.
Model of Python `str(n)` for a nonnegative integer. -/
def natChars (n : Nat) : List Char := natCharsAux (n + 1) n

/-- Model of Python `str` on an integer. -/
def intChars (i : Int) : List Char :=
  if i < 0 then '-' :: natChars i.natAbs else natChars i.natAbs

/-- Model of Python `str` on an integer, as a `String`. -/
def intStr (i : Int) : String := String.mk (intChars i)

/-- Round a rational to the nearest integer, ties to even (the rounding used
by Python float formatting, applied here to the exact value). -/
def roundHalfEven (q : ℚ) : ℤ :=
  let f : ℤ := q.floor
  let r : ℚ := q - f
  if r < 1/2 then f
  else if 1/2 < r then f + 1
  else if f % 2 = 0 then f else f + 1

/-- Integer part, decimal point, and two fractional digits of `a / 100`,
preceded by a sign block. -/
def fmt2core (sign : List Char) (a : Nat) : List Char :=
  sign ++ natChars (a / 100) ++
    ['.', Nat.digitChar (a % 100 / 10), Nat.digitChar (a % 100 % 10)]

/-- Model of the Python format `f"{x:.2f}"` on the exact rational value. -/
def fmt2 (q : ℚ) : List Char :=
  let m : ℤ := roundHalfEven (q * 100)
  fmt2core (if m < 0 ∨ (m = 0 ∧ q < 0) then ['-'] else []) m.natAbs

/-- Model of `f"{x:.2f}"` as a `String`. -/
def fmt2Str (q : ℚ) : String := String.mk (fmt2 q)

/-- Recognizer for strings that end in a decimal point, two digits and a
percent sign, with a nonempty integer part: the shape of a well-defined
two-decimal percentage such as `"12.34%"`. -/
def isTwoDecPct (s : String) : Bool :=
  match s.data.reverse with
  | '%' :: d2 :: d1 :: '.' :: rest => d1.isDigit && d2.isDigit && !rest.isEmpty
  | _ => false

/-! ### C9: default output path (`CSVToExcelConverter.__init__`) -/

/-- Model of Python `s.replace(".csv", "_comprehensive.xlsx")`: replace every
non-overlapping occurrence of `.csv`, scanning left to right.  This is the
expression computing the default output path in `CSVToExcelConverter.__init__`. -/
def replaceCsv : List Char → List Char
  | [] => []
  | c :: rest =>
    if ['.', 'c', 's', 'v'].isPrefixOf (c :: rest) then
      "_comprehensive.xlsx".data ++ replaceCsv (rest.drop 3)
    else
      c :: replaceCsv rest
termination_by l => l.length
decreasing_by
  all_goals simp only [List.length_cons, List.length_drop]
  all_goals omega

/-- Default output path chosen when no explicit output path is supplied
(`csv_file_path.replace('.csv', '_comprehensive.xlsx')`). -/
def defaultOutputPath (p : String) : String := String.mk (replaceCsv p.data)

/-- Whether `.csv` occurs as a substring (used to state C9). -/
def hasCsvSub : List Char → Bool
  | [] => false
  | c :: rest => ['.', 'c', 's', 'v'].isPrefixOf (c :: rest) || hasCsvSub rest

/-! ### C2: the loader `load_data`

`pd.read_csv` is external to the repository; an attempt with one encoding is
modelled as a function from the encoding name to `Except ReadErr α`, where
`ReadErr.decodeErr` stands for `UnicodeDecodeError` and `ReadErr.otherErr`
for any other exception raised by the parse. -/

/-- Outcome classes of one `pd.read_csv` call: a `UnicodeDecodeError`, or any
other exception. -/
inductive ReadErr where
  | decodeErr
  | otherErr
deriving DecidableEq

/-- Model of `load_data`: try `utf-8`; on `UnicodeDecodeError` only, try
`utf-8-sig`; on `UnicodeDecodeError` only, fall back to `latin-1`.  Any other
exception propagates immediately (the `except` clauses catch only
`UnicodeDecodeError`). -/
def load_data {α : Type} (attempt : String → Except ReadErr α) : Except ReadErr α :=
  match attempt "utf-8" with
  | .ok t => .ok t
  | .error .decodeErr =>
    match attempt "utf-8-sig" with
    | .ok t => .ok t
    | .error .decodeErr => attempt "latin-1"
    | .error .otherErr => .error .otherErr
  | .error .otherErr => .error .otherErr

/-- The prioritized encoding list of `load_data`, in source order. -/
def encList : List String := ["utf-8", "utf-8-sig", "latin-1"]

/-- Whether an attempt outcome is a success. -/
def okRead {α : Type} : Except ReadErr α → Bool
  | .ok _ => true
  | .error _ => false

/-- Attempt function where `utf-8` raises a non-decoding parse error while
`latin-1` would succeed (counterexample input for C2). -/
def attemptParseBoom : String → Except ReadErr Nat :=
  fun enc => if enc = "latin-1" then .ok 0 else .error .otherErr

/-- Attempt function where the first two encodings raise `UnicodeDecodeError`
and `latin-1` succeeds (witness input for the amended C2). -/
def attemptTwoDecodeFails : String → Except ReadErr Nat :=
  fun enc => if enc = "latin-1" then .ok 7 else .error .decodeErr

/-! ### C3: the orchestrator `convert`

`convert` runs eight operations in a fixed order inside one `try` block;
each is modelled as a fallible stage.  The outcome of each stage is a
parameter; `convert` returns the reported boolean and the list of stages
that were actually entered. -/

/-- The eight operations inside the `try` block of `convert`, in source
order: `load_data`, `create_workbook`, the four sheet generators,
`finalize_workbook`, and `workbook.save`. -/
inductive Stage where
  | loadData
  | createWorkbook
  | mainData
  | summary
  | charts
  | filtered
  | finalizeWb
  | save
deriving DecidableEq, Fintype

/-- The fixed execution order of the stages in `convert`. -/
def stageOrder : List Stage :=
  [.loadData, .createWorkbook, .mainData, .summary, .charts, .filtered, .finalizeWb, .save]

/-- Whether a stage outcome is a success. -/
def okStage : Except String Unit → Bool
  | .ok _ => true
  | .error _ => false

/-- Run stages in order: on the first exception, abort the remaining stages
and report failure (the single `except` clause of `convert`); otherwise
report success.  Also returns the list of stages that were entered. -/
def runStages (o : Stage → Except String Unit) : List Stage → Bool × List Stage
  | [] => (true, [])
  | s :: rest =>
    match o s with
    | .ok _ =>
      let p := runStages o rest
      (p.1, s :: p.2)
    | .error _ => (false, [s])

/-- Model of `convert`: the full pipeline under the single failure boundary. -/
def convert (o : Stage → Except String Unit) : Bool × List Stage :=
  runStages o stageOrder

/-- Boolean abstraction of `runStages` (only success/failure of each stage
matters for control flow). -/
def runStagesB (ok : Stage → Bool) : List Stage → Bool × List Stage
  | [] => (true, [])
  | s :: rest =>
    if ok s then
      let p := runStagesB ok rest
      (p.1, s :: p.2)
    else (false, [s])

/-- The stages strictly after a given stage in the fixed order of `convert`. -/
def stagesAfter : Stage → List Stage
  | .loadData => [.createWorkbook, .mainData, .summary, .charts, .filtered, .finalizeWb, .save]
  | .createWorkbook => [.mainData, .summary, .charts, .filtered, .finalizeWb, .save]
  | .mainData => [.summary, .charts, .filtered, .finalizeWb, .save]
  | .summary => [.charts, .filtered, .finalizeWb, .save]
  | .charts => [.filtered, .finalizeWb, .save]
  | .filtered => [.finalizeWb, .save]
  | .finalizeWb => [.save]
  | .save => []

/-- Stage outcomes where the charts generator raises and every other stage
would succeed (witness input for C3). -/
def outcomesChartsRaise : Stage → Except String Unit :=
  fun s => match s with
    | .charts => .error "boom"
    | _ => .ok ()

/-! ### The data model

A pandas data frame loaded from CSV is modelled as a list of named typed
columns: a numeric (`float64`) column holds optional rationals, an object
(text) column holds optional strings; a missing entry (`NaN`) is `none`.
Only these two inferred dtypes occur in the embedding; integer dtypes are
subsumed under the numeric case. -/

/-- A value held by a spreadsheet cell. -/
inductive CellVal where
  | str (s : String)
  | int (i : Int)
  | float (q : ℚ)
deriving DecidableEq

/-- The data of one column: numeric (`float64`) or object (text) dtype. -/
inductive ColData where
  | nums (l : List (Option ℚ))
  | strs (l : List (Option String))
deriving DecidableEq

/-- A named column. -/
structure Col where
  name : String
  data : ColData
deriving DecidableEq

/-- The loaded table: row count and columns in order. -/
structure Table where
  nrows : Nat
  cols : List Col
deriving DecidableEq

/-- `str(dtype)` as written in the summary sheet's Data Type column. -/
def ColData.dtypeStr : ColData → String
  | .nums _ => "float64"
  | .strs _ => "object"

/-- Whether the column dtype is numeric (`select_dtypes(include=[np.number])`). -/
def ColData.isNums : ColData → Bool
  | .nums _ => true
  | .strs _ => false

/-- `count()`: number of non-null entries. -/
def ColData.nonNull : ColData → Nat
  | .nums l => (l.filterMap id).length
  | .strs l => (l.filterMap id).length

/-- `isnull().sum()`: number of null entries. -/
def ColData.nullCount : ColData → Nat
  | .nums l => (l.filter (fun x => x.isNone)).length
  | .strs l => (l.filter (fun x => x.isNone)).length

/-- The cell value contributed by column `c` in data row `i` (`NaN` is `none`). -/
def Col.cellAt (c : Col) (i : Nat) : Option CellVal :=
  match c.data with
  | .nums l => (l.getD i none).map CellVal.float
  | .strs l => (l.getD i none).map CellVal.str

/-- The optional-rational data of a numeric column (empty for object columns). -/
def Col.numData (c : Col) : List (Option ℚ) :=
  match c.data with
  | .nums l => l
  | .strs _ => []

/-- The optional-string data of an object column (empty for numeric columns). -/
def Col.objData (c : Col) : List (Option String) :=
  match c.data with
  | .strs l => l
  | .nums _ => []

/-- `select_dtypes(include=[np.number]).columns`, in table order. -/
def numericCols (t : Table) : List Col := t.cols.filter (fun c => c.data.isNums)

/-- `select_dtypes(include=['object']).columns`, in table order. -/
def objectCols (t : Table) : List Col := t.cols.filter (fun c => !c.data.isNums)

/-- `Series.mean()`: arithmetic mean of the non-null entries, NaN (`none`)
when every entry is null. -/
def meanOf (l : List (Option ℚ)) : Option ℚ :=
  let v := l.filterMap id
  if v.length = 0 then none else some (v.sum / v.length)

/-! ### Stringification of cell values (for column-width computation) -/

/-- Model of Python `str` on a float.  The binary floating-point `repr`
algorithm is outside the embedding; the value is rendered from the exact
rational instead. -/
def pyStrFloat (q : ℚ) : String :=
  if q.den = 1 then intStr q.num ++ ".0"
  else intStr q.num ++ "/" ++ String.mk (natChars q.den)

/-- Model of Python `str` on a cell value. -/
def pyStrCell : CellVal → String
  | .str s => s
  | .int i => intStr i
  | .float q => pyStrFloat q

/-- `str(cell.value)` for a cell of the appended data grid: a missing entry
was appended as float NaN, and `str(nan) = "nan"`. -/
def pyStrDataCell : Option CellVal → String
  | none => "nan"
  | some v => pyStrCell v

/-- `str(cell.value)` for a cell of a bounding-box grid: a never-written
cell has `cell.value is None`, and `str(None) = "None"`. -/
def pyStrGapCell : Option CellVal → String
  | none => "None"
  | some v => pyStrCell v

/-- The `max_length` loop of the width pass:
`if len(str(cell.value)) > max_length: max_length = len(str(cell.value))`. -/
def foldMaxLen (strs : List String) : Nat :=
  strs.foldl (fun m s => if s.length > m then s.length else m) 0

/-! ### Cells and charts -/

/-- One written cell: 1-based row and column, and the value. -/
structure Cell where
  row : Nat
  col : Nat
  val : CellVal
deriving DecidableEq

/-- Chart kinds used by the script. -/
inductive ChartKind where
  | bar
  | pie
deriving DecidableEq

/-- An embedded chart: kind, title, anchor, and the two `Reference` ranges
(data series and categories). -/
structure ChartSpec where
  kind : ChartKind
  title : String
  anchor : String
  dataMinCol : Nat
  dataMinRow : Nat
  dataMaxRow : Nat
  catMinCol : Nat
  catMinRow : Nat
  catMaxRow : Nat
deriving DecidableEq

/-- Value of the cell written at `(r, cc)` in a write log (first write wins;
the generators write each coordinate at most once). -/
def cellValAt (cells : List Cell) (r cc : Nat) : Option CellVal :=
  (List.find? (fun x => x.row == r && x.col == cc) cells).map (fun x => x.val)

/-- Largest written row index (`ws.max_row`). -/
def logMaxRow (cells : List Cell) : Nat := cells.foldl (fun m c => max m c.row) 0

/-- Largest written column index (`ws.max_column`). -/
def logMaxCol (cells : List Cell) : Nat := cells.foldl (fun m c => max m c.col) 0

/-- Column `cc` of the bounding-box grid of a write log: the values at rows
`1..max_row` (`none` for never-written cells). -/
def gridColumnVals (cells : List Cell) (cc : Nat) : List (Option CellVal) :=
  (List.range' 1 (logMaxRow cells)).map (fun r => cellValAt cells r cc)

/-! ### Main data sheet (`create_main_data_sheet`) -/

/-- Visual attributes tracked by the embedding: bold flag, solid-fill flag,
and font size. -/
structure CellStyle where
  bold : Bool
  filled : Bool
  fontSize : Nat
deriving DecidableEq

/-- `header_font` (bold, size 12) together with `header_fill` (solid). -/
def headerStyle : CellStyle := ⟨true, true, 12⟩

/-- `data_font` (size 10), no fill. -/
def dataStyle : CellStyle := ⟨false, false, 10⟩

/-- openpyxl's default style for a freshly appended cell. -/
def plainStyle : CellStyle := ⟨false, false, 11⟩

/-- A grid cell together with its style. -/
structure StyledCell where
  val : Option CellVal
  style : CellStyle
deriving DecidableEq

/-- The header row yielded by `dataframe_to_rows` (the column names). -/
def Table.headerRow (t : Table) : List (Option CellVal) :=
  t.cols.map (fun c => some (.str c.name))

/-- Data row `i` yielded by `dataframe_to_rows`. -/
def Table.rowAt (t : Table) (i : Nat) : List (Option CellVal) :=
  t.cols.map (fun c => c.cellAt i)

/-- The grid after the `ws.append` loop: header row then all data rows,
all in the default style. -/
def appendedRows (t : Table) : List (List StyledCell) :=
  (t.headerRow :: (List.range t.nrows).map t.rowAt).map
    (fun r => r.map (fun v => ⟨v, plainStyle⟩))

/-- The `for cell in ws[1]` styling pass: header style on row 1. -/
def styleHeaderRow : List (List StyledCell) → List (List StyledCell)
  | [] => []
  | r :: rest => r.map (fun c => { c with style := headerStyle }) :: rest

/-- The `ws.iter_rows(min_row=2)` styling pass: data style on rows 2..end. -/
def styleDataRows : List (List StyledCell) → List (List StyledCell)
  | [] => []
  | r :: rest => r :: rest.map (fun row => row.map (fun c => { c with style := dataStyle }))

/-- The fully styled grid of the "Complete Data" sheet. -/
def mainRows (t : Table) : List (List StyledCell) :=
  styleDataRows (styleHeaderRow (appendedRows t))

/-- The columns of the main grid (`ws.columns`), as value lists. -/
def mainColumnsVals (t : Table) : List (List (Option CellVal)) :=
  (List.range t.cols.length).map
    (fun j => (mainRows t).filterMap (fun r => (r[j]?).map (fun c => c.val)))

/-- Column widths of the main data sheet:
`min(max_length + 2, 50)` per column. -/
def mainWidths (t : Table) : List Nat :=
  (mainColumnsVals t).map
    (fun cells => min (foldMaxLen (cells.map pyStrDataCell) + 2) 50)

/-- The "Complete Data" sheet: styled grid, column widths, and whether a
table region was registered (`len(self.data) > 0`). -/
structure MainSheet where
  rows : List (List StyledCell)
  widths : List Nat
  hasTable : Bool
deriving DecidableEq

/-- Model of `create_main_data_sheet`. -/
def create_main_data_sheet (t : Table) : MainSheet :=
  { rows := mainRows t
  , widths := mainWidths t
  , hasTable := decide (0 < t.nrows) }

/-! ### Summary sheet (`create_summary_sheet`) -/

/-- The null-percentage string
`f"{(self.data[col].isnull().sum() / len(self.data)) * 100:.2f}%"`.
With zero rows the numpy scalar division `0 / 0` yields NaN (no exception is
raised), and the f-string renders it as `"nan"`. -/
def nullPctStr (nulls total : Nat) : String :=
  if total = 0 then "nan%" else fmt2Str ((nulls : ℚ) / total * 100) ++ "%"

/-- The fixed cells written before the per-column information: overview,
record/column counts, generation timestamp (`B5`), and the column-info
headers in row 8. -/
def summaryPrelude (t : Table) (now : String) : List Cell :=
  [⟨1, 1, .str "Dataset Overview"⟩,
   ⟨3, 1, .str "Total Records:"⟩, ⟨3, 2, .int t.nrows⟩,
   ⟨4, 1, .str "Total Columns:"⟩, ⟨4, 2, .int t.cols.length⟩,
   ⟨5, 1, .str "File Generated:"⟩, ⟨5, 2, .str now⟩,
   ⟨7, 1, .str "Column Information"⟩,
   ⟨8, 1, .str "Column Name"⟩, ⟨8, 2, .str "Data Type"⟩,
   ⟨8, 3, .str "Non-Null Count"⟩, ⟨8, 4, .str "Null Count"⟩,
   ⟨8, 5, .str "Null Percentage"⟩]

/-- The per-column information rows (`for i, col in enumerate(..., start=9)`):
name, dtype, non-null count, null count, null percentage. -/
def colInfoCells : Nat → Nat → List Col → List Cell
  | _, _, [] => []
  | r, total, c :: rest =>
    [⟨r, 1, .str c.name⟩, ⟨r, 2, .str c.data.dtypeStr⟩,
     ⟨r, 3, .int c.data.nonNull⟩, ⟨r, 4, .int c.data.nullCount⟩,
     ⟨r, 5, .str (nullPctStr c.data.nullCount total)⟩]
      ++ colInfoCells (r + 1) total rest

/-- Modelled from the spec: the row labels of `pandas.DataFrame.describe()`
(the library routine is external to the repository). -/
def describeIndex : List String :=
  ["count", "mean", "std", "min", "25%", "50%", "75%", "max"]

/-- A statistics cell: `f"{value:.2f}"`, or `"N/A"` when the statistic is
NaN (`pd.notnull(value)` fails). -/
def statCellVal (v : Option ℚ) : CellVal :=
  match v with
  | some q => .str (fmt2Str q)
  | none => .str "N/A"

/-- The header row of the numeric-statistics block
(`['Statistic'] + list(numeric_cols)` at `start_row + 2`). -/
def statsHeaderCells (row : Nat) (names : List String) : List Cell :=
  ("Statistic" :: names).enum.map (fun p => ⟨row, p.1 + 1, .str p.2⟩)

/-- The data rows of the numeric-statistics block: one row per statistic in
`describeIndex`, the label in column 1 and one formatted value per numeric
column from column 2 on.  `dFn` models `describe()`: it maps a numeric
column's data and a statistic label to the statistic's value (`none` = NaN). -/
def statsDataCells (dFn : List (Option ℚ) → String → Option ℚ) (row0 : Nat)
    (ncols : List Col) : List Cell :=
  describeIndex.enum.flatMap (fun p =>
    ⟨row0 + p.1, 1, .str p.2⟩ ::
      ncols.enum.map (fun cj => ⟨row0 + p.1, cj.1 + 2, statCellVal (dFn cj.2.numData p.2)⟩))

/-- The numeric-statistics block, present only when numeric columns exist;
`start_row = len(self.data.columns) + 11`. -/
def statsBlock (dFn : List (Option ℚ) → String → Option ℚ) (t : Table) : List Cell :=
  let ncols := numericCols t
  if 0 < ncols.length then
    ⟨t.cols.length + 11, 1, .str "Numeric Columns Statistics"⟩ ::
      (statsHeaderCells (t.cols.length + 13) (ncols.map (fun c => c.name))
        ++ statsDataCells dFn (t.cols.length + 14) ncols)
  else []

/-- The full write log of the "Data Summary" sheet. -/
def summaryCells (dFn : List (Option ℚ) → String → Option ℚ) (t : Table)
    (now : String) : List Cell :=
  summaryPrelude t now ++ colInfoCells 9 t.nrows t.cols ++ statsBlock dFn t

/-- Column widths of the summary sheet: the width pass iterates the bounding
box (`ws.columns`), so never-written cells contribute `len(str(None)) = 4`;
`min(max_length + 2, 30)` per column. -/
def summaryWidths (cells : List Cell) : List Nat :=
  (List.range' 1 (logMaxCol cells)).map
    (fun cc => min (foldMaxLen ((gridColumnVals cells cc).map pyStrGapCell) + 2) 30)

/-- The "Data Summary" sheet: write log and column widths. -/
structure SummarySheet where
  cells : List Cell
  widths : List Nat
deriving DecidableEq

/-- Model of `create_summary_sheet`. -/
def create_summary_sheet (dFn : List (Option ℚ) → String → Option ℚ) (t : Table)
    (now : String) : SummarySheet :=
  { cells := summaryCells dFn t now
  , widths := summaryWidths (summaryCells dFn t now) }

/-! ### Charts sheet (`create_charts_sheet`) -/

/-- The "Data Visualizations" sheet: write log and embedded charts. -/
structure ChartsSheet where
  cells : List Cell
  charts : List ChartSpec
deriving DecidableEq

/-- `chart_data`: the first 10 numeric columns paired with their means,
columns with undefined (all-null) mean skipped. -/
def chartDataOf (t : Table) : List (String × ℚ) :=
  ((numericCols t).take 10).filterMap
    (fun c => (meanOf c.numData).map (fun m => (c.name, m)))

/-- The two-column name/mean rows written from row 4 on. -/
def chartRowCells : Nat → List (String × ℚ) → List Cell
  | _, [] => []
  | r, (n, v) :: rest =>
    [⟨r, 1, .str n⟩, ⟨r, 2, .float v⟩] ++ chartRowCells (r + 1) rest

/-- Model of `create_charts_sheet`: the title cell is always written; the
name/mean table and the bar chart only when numeric columns with a
computable mean exist. -/
def create_charts_sheet (t : Table) : ChartsSheet :=
  let base : List Cell := [⟨1, 1, .str "Data Visualizations"⟩]
  if 0 < (numericCols t).length then
    let cd := chartDataOf t
    if 0 < cd.length then
      { cells := base ++ [⟨3, 1, .str "Column"⟩, ⟨3, 2, .str "Average Value"⟩]
          ++ chartRowCells 4 cd
      , charts := [{ kind := .bar, title := "Average Values by Numeric Columns"
                   , anchor := "D3"
                   , dataMinCol := 2, dataMinRow := 3, dataMaxRow := 3 + cd.length
                   , catMinCol := 1, catMinRow := 4, catMaxRow := 3 + cd.length }] }
    else { cells := base, charts := [] }
  else { cells := base, charts := [] }

/-! ### Filtered/analysis sheets (`create_filtered_sheets`) -/

/-- `len(self.data[col].unique())`: number of distinct entries of an object
column in order of appearance, a null entry (`NaN`) counting as one distinct
entry. -/
def uniqueLen (l : List (Option String)) : Nat :=
  (l.foldl (fun acc v => if v ∈ acc then acc else acc ++ [v]) []).length

/-- The distinct non-null values of an object column, in order of first
occurrence. -/
def firstOcc (l : List (Option String)) : List String :=
  (l.filterMap id).foldl (fun acc v => if v ∈ acc then acc else acc ++ [v]) []

/-- `value_counts()`: distinct non-null values with their occurrence counts,
sorted by count descending (stable, so equal counts stay in first-occurrence
order). -/
def valueCounts (l : List (Option String)) : List (String × Nat) :=
  ((firstOcc l).map (fun v => (v, (l.filterMap id).count v))).mergeSort
    (fun a b => b.2 ≤ a.2)

/-- Number of distinct non-null values (used to state C1). -/
def distinctNonNull (l : List (Option String)) : Nat := (firstOcc l).length

/-- The guard under which `create_filtered_sheets` emits a sheet for a
column: `len(unique()) <= 20`, then `len(value_counts()) > 1`. -/
def analysisKept (l : List (Option String)) : Bool :=
  if uniqueLen l ≤ 20 then
    if 1 < (valueCounts l).length then true else false
  else false

/-- One produced analysis sheet: name, write log, charts. -/
structure AnalysisSheet where
  name : String
  cells : List Cell
  charts : List ChartSpec
deriving DecidableEq

/-- The value/count/percentage rows written from row 4 on
(`f"{(count/total)*100:.2f}%"`). -/
def vcCells : Nat → Nat → List (String × Nat) → List Cell
  | _, _, [] => []
  | r, total, (v, cnt) :: rest =>
    [⟨r, 1, .str v⟩, ⟨r, 2, .int cnt⟩,
     ⟨r, 3, .str (fmt2Str ((cnt : ℚ) / total * 100) ++ "%")⟩]
      ++ vcCells (r + 1) total rest

/-- The analysis sheet produced for one kept column: sheet name from the
column name truncated to 25 characters plus `_Analysis`, the frequency
table, and a pie chart when there are at most 10 distinct values. -/
def analysisSheetOf (total : Nat) (c : Col) : AnalysisSheet :=
  let vc := valueCounts c.objData
  { name := c.name.take 25 ++ "_Analysis"
  , cells := [⟨1, 1, .str ("Analysis: " ++ c.name)⟩,
      ⟨3, 1, .str "Value"⟩, ⟨3, 2, .str "Count"⟩, ⟨3, 3, .str "Percentage"⟩]
      ++ vcCells 4 total vc
  , charts := if vc.length ≤ 10 then
      [{ kind := .pie, title := "Distribution of " ++ c.name, anchor := "E3"
       , dataMinCol := 2, dataMinRow := 3, dataMaxRow := 3 + vc.length
       , catMinCol := 1, catMinRow := 4, catMaxRow := 3 + vc.length }]
    else [] }

/-- Model of `create_filtered_sheets`: for the first 5 object columns, emit
an analysis sheet exactly when the column passes `analysisKept`. -/
def create_filtered_sheets (t : Table) : List AnalysisSheet :=
  ((objectCols t).take 5).filterMap
    (fun c => if analysisKept c.objData then some (analysisSheetOf t.nrows c) else none)

/-! ### Workbook assembly (`convert` body and `finalize_workbook`) -/

/-- Workbook metadata set by `finalize_workbook`. -/
structure WbProps where
  title : String
  subject : String
  creator : String
  description : String
deriving DecidableEq

/-- `os.path.basename`: the part of the path after the last `/`. -/
def basenameOf (p : String) : String :=
  String.mk ((p.data.reverse.takeWhile (fun c => c ≠ '/')).reverse)

/-- The complete produced workbook. -/
structure Workbook where
  mainData : MainSheet
  summary : SummarySheet
  chartsSheet : ChartsSheet
  filtered : List AnalysisSheet
  props : WbProps
deriving DecidableEq

/-- The sheet names of the workbook, in creation order. -/
def Workbook.sheetNames (w : Workbook) : List String :=
  "Complete Data" :: "Data Summary" :: "Data Visualizations"
    :: w.filtered.map (fun s => s.name)

/-- The workbook produced by one successful run of `convert`: `now` is the
timestamp string written to summary cell `B5`
(`datetime.now().strftime("%Y-%m-%d %H:%M:%S")`) and `today` the date string
used in the metadata description (`datetime.now().strftime('%Y-%m-%d')`). -/
def buildWorkbook (dFn : List (Option ℚ) → String → Option ℚ) (csvPath : String)
    (t : Table) (now today : String) : Workbook :=
  { mainData := create_main_data_sheet t
  , summary := create_summary_sheet dFn t now
  , chartsSheet := create_charts_sheet t
  , filtered := create_filtered_sheets t
  , props := { title := "Data Analysis Report"
             , subject := "Comprehensive data analysis from CSV"
             , creator := "CSV to Excel Converter"
             , description := "Generated from " ++ basenameOf csvPath ++ " on " ++ today } }

/-- The timestamp-independent observables of a workbook (C6): sheet names,
all cell values of every sheet with summary `B5` masked, all charts, and the
metadata other than the description.  Column widths are not part of the
claim's observables. -/
structure Observable where
  names : List String
  mainData : List (List StyledCell)
  summaryMasked : List Cell
  chartsCells : List Cell
  chartsCharts : List ChartSpec
  filtered : List AnalysisSheet
  title : String
  subject : String
  creator : String
deriving DecidableEq

/-- Replace the value of the timestamp cell `B5` by a fixed placeholder. -/
def maskTimestampCell (cells : List Cell) : List Cell :=
  cells.map (fun c => if c.row == 5 && c.col == 2 then { c with val := .str "" } else c)

/-- Project a workbook to its timestamp-independent observables. -/
def observableOf (w : Workbook) : Observable :=
  { names := w.sheetNames
  , mainData := w.mainData.rows
  , summaryMasked := maskTimestampCell w.summary.cells
  , chartsCells := w.chartsSheet.cells
  , chartsCharts := w.chartsSheet.charts
  , filtered := w.filtered
  , title := w.props.title
  , subject := w.props.subject
  , creator := w.props.creator }

/-! ### Concrete inputs for witnesses and counterexamples -/

/-- A `describe()` model usable at concrete inputs (every statistic NaN). -/
def dNone : List (Option ℚ) → String → Option ℚ := fun _ _ => none

/-- A 5-row table with one fully null text column (C4 witness input). -/
def tAllNull : Table :=
  ⟨5, [⟨"empty_col", .strs [none, none, none, none, none]⟩]⟩

/-- A zero-row table with one text column (C10 witness input). -/
def tZeroRows : Table := ⟨0, [⟨"c", .strs []⟩]⟩

/-- A table with no numeric columns (C5 input). -/
def tNoNum : Table := ⟨2, [⟨"name", .strs [some "x", some "y"]⟩]⟩

/-- An object column with 20 distinct non-null values and one null entry:
`unique()` sees 21 entries, `value_counts()` sees 20 (C1 counterexample). -/
def col20Null : Col :=
  ⟨"cat", .strs [some "a", some "b", some "c", some "d", some "e",
    some "f", some "g", some "h", some "i", some "j",
    some "k", some "l", some "m", some "n", some "o",
    some "p", some "q", some "r", some "s", some "t", none]⟩

/-- The table holding `col20Null` (C1 counterexample input). -/
def t20Null : Table := ⟨21, [col20Null]⟩

/-- An object column with 3 distinct values and no nulls (C1 witness input). -/
def colW : Col := ⟨"city", .strs [some "x", some "y", some "y", some "z"]⟩

/-- The table holding `colW`. -/
def tW : Table := ⟨4, [colW]⟩

/-- The table of C8's concrete example: header `{A, B}`, rows
`[(1, "x"), (2, "y")]`. -/
def tAB : Table :=
  ⟨2, [⟨"A", .nums [some 1, some 2]⟩, ⟨"B", .strs [some "x", some "y"]⟩]⟩

/-! ## Theorems -/

/-! ### Formatting lemmas -/

theorem natChars_ne_nil (n : Nat) : natChars n ≠ [] := by
  rw [natChars, natCharsAux]
  split <;> simp

theorem digitChar_isDigit {d : Nat} (h : d < 10) : (Nat.digitChar d).isDigit = true := by
  interval_cases d <;> decide

theorem isTwoDecPct_fmt2core (sign : List Char) (a : Nat) :
    isTwoDecPct (String.mk (fmt2core sign a ++ ['%'])) = true := by
  have h1 : (Nat.digitChar (a % 100 / 10)).isDigit = true :=
    digitChar_isDigit (by omega)
  have h2 : (Nat.digitChar (a % 100 % 10)).isDigit = true :=
    digitChar_isDigit (by omega)
  unfold isTwoDecPct fmt2core
  simp [h1, h2, natChars_ne_nil]

theorem isTwoDecPct_fmt2 (q : ℚ) : isTwoDecPct (String.mk (fmt2 q ++ ['%'])) = true := by
  unfold fmt2
  exact isTwoDecPct_fmt2core _ _

/-! ### C9 -/

theorem replaceCsv_of_no_occurrence {l : List Char} (h : hasCsvSub l = false) :
    replaceCsv l = l := by
  induction l with
  | nil => simp [replaceCsv]
  | cons c rest ih =>
    rw [hasCsvSub] at h
    simp only [Bool.or_eq_false_iff] at h
    rw [replaceCsv, if_neg (by simp [h.1]), ih h.2]

/-- C9: the default output path is the input path with every occurrence of
`.csv` replaced by `_comprehensive.xlsx`; when the input path contains no
occurrence of `.csv`, the default output path equals the input path itself,
so a successful run writes over the input file. -/
theorem c9_default_path_no_csv (p : String) (h : hasCsvSub p.data = false) :
    defaultOutputPath p = p := by
  unfold defaultOutputPath
  rw [replaceCsv_of_no_occurrence h]

/-- Witness for C9 at the concrete input path `"report.txt"`. -/
theorem c9_default_path_no_csv_witness :
    hasCsvSub "report.txt".data = false ∧ defaultOutputPath "report.txt" = "report.txt" :=
  ⟨by decide, c9_default_path_no_csv "report.txt" (by decide)⟩

/-! ### C2 -/

/-- C2 counterexample: when the `utf-8` attempt raises a non-decoding parse
error, `load_data` fails even though an encoding in the list (`latin-1`)
would parse without error — contradicting "uses the first attempt that
parses without error" and "fails fatally only when no encoding succeeds". -/
theorem c2_counterexample :
    (∃ enc ∈ encList, okRead (attemptParseBoom enc) = true) ∧
      okRead (load_data attemptParseBoom) = false :=
  ⟨⟨"latin-1", by decide, rfl⟩, rfl⟩

/-- C2 amended: `load_data` tries `utf-8`, `utf-8-sig`, `latin-1` in that
order, moving past an attempt only when it raises a decoding error; a
success is always the first attempt that parses without error, all earlier
attempts having raised decoding errors; when the first two attempts raise
decoding errors the result is exactly that of the `latin-1` attempt; and a
non-decoding error on the first attempt aborts `load_data` immediately. -/
theorem c2_load_order {α : Type} (a : String → Except ReadErr α) :
    (∀ t, load_data a = .ok t →
      ∃ i, ∃ hi : i < encList.length, a (encList.get ⟨i, hi⟩) = .ok t ∧
        ∀ j, ∀ hj : j < encList.length, j < i →
          a (encList.get ⟨j, hj⟩) = .error .decodeErr)
    ∧ ((a "utf-8" = .error .decodeErr ∧ a "utf-8-sig" = .error .decodeErr) →
        load_data a = a "latin-1")
    ∧ (a "utf-8" = .error .otherErr → load_data a = .error .otherErr) := by
  refine ⟨?_, ?_, ?_⟩
  · intro t ht
    unfold load_data at ht
    split at ht
    · rename_i t1 h1
      cases ht
      exact ⟨0, by simp [encList], by simpa [encList] using h1,
        fun j hj hj0 => absurd hj0 (by omega)⟩
    · rename_i h1
      split at ht
      · rename_i t2 h2
        cases ht
        refine ⟨1, by simp [encList], by simpa [encList] using h2, ?_⟩
        intro j hj hj1
        have hj0 : j = 0 := by omega
        subst hj0
        simpa [encList] using h1
      · rename_i h2
        refine ⟨2, by simp [encList], by simpa [encList] using ht, ?_⟩
        intro j hj hj2
        interval_cases j
        · simpa [encList] using h1
        · simpa [encList] using h2
      · exact absurd ht (by simp)
    · exact absurd ht (by simp)
  · rintro ⟨h1, h2⟩
    unfold load_data
    rw [h1, h2]
  · intro h1
    unfold load_data
    rw [h1]

/-- Witness for the amended C2: with decoding errors on the first two
attempts, the result is exactly the `latin-1` attempt's result. -/
theorem c2_load_order_witness :
    load_data attemptTwoDecodeFails = attemptTwoDecodeFails "latin-1" :=
  (c2_load_order attemptTwoDecodeFails).2.1 ⟨rfl, rfl⟩

/-! ### C3 -/

theorem runStages_eq_boolean (o : Stage → Except String Unit) (l : List Stage) :
    runStages o l = runStagesB (fun s => okStage (o s)) l := by
  induction l with
  | nil => rfl
  | cons s rest ih =>
    rw [runStages, runStagesB]
    cases h : o s <;> simp [okStage, h, ih]

set_option maxRecDepth 40000 in
/-- C3: in `convert`, (i) success is reported iff every stage runs without
exception; (ii) the save stage is entered only when loading, workbook
creation, every sheet generator and finalization all succeeded; (iii) an
exception in any stage makes `convert` report failure and prevents every
later stage from being entered. -/
theorem c3_failure_boundary (o : Stage → Except String Unit) :
    ((convert o).1 = true ↔ ∀ s ∈ stageOrder, okStage (o s) = true)
    ∧ (Stage.save ∈ (convert o).2 →
        ∀ s ∈ stageOrder, s ≠ Stage.save → okStage (o s) = true)
    ∧ (∀ s, okStage (o s) = false →
        (convert o).1 = false ∧ ∀ t ∈ stagesAfter s, t ∉ (convert o).2) := by
  have key1 : ∀ f : Stage → Bool,
      (runStagesB f stageOrder).1 = true ↔ ∀ s ∈ stageOrder, f s = true := by
    decide
  have key2 : ∀ f : Stage → Bool, Stage.save ∈ (runStagesB f stageOrder).2 →
      ∀ s ∈ stageOrder, s ≠ Stage.save → f s = true := by
    decide
  have key3 : ∀ f : Stage → Bool, ∀ s : Stage, f s = false →
      (runStagesB f stageOrder).1 = false := by
    decide
  have key4 : ∀ f : Stage → Bool, ∀ s : Stage, f s = false →
      ∀ t ∈ stagesAfter s, t ∉ (runStagesB f stageOrder).2 := by
    decide
  rw [convert, runStages_eq_boolean]
  exact ⟨key1 _, key2 _, fun s hs => ⟨key3 _ s hs, key4 _ s hs⟩⟩

/-- Witness for C3: when the charts generator raises, `convert` reports
failure and the save stage is never entered (no output file is written). -/
theorem c3_failure_boundary_witness :
    (convert outcomesChartsRaise).1 = false ∧
      Stage.save ∉ (convert outcomesChartsRaise).2 :=
  ⟨((c3_failure_boundary outcomesChartsRaise).2.2 Stage.charts rfl).1,
   ((c3_failure_boundary outcomesChartsRaise).2.2 Stage.charts rfl).2 Stage.save (by decide)⟩

/-! ### C8 -/

theorem mainRows_expand (t : Table) :
    mainRows t
      = (t.cols.map fun c => (⟨some (.str c.name), headerStyle⟩ : StyledCell))
        :: (List.range t.nrows).map
            (fun i => t.cols.map fun c => (⟨c.cellAt i, dataStyle⟩ : StyledCell)) := by
  simp [mainRows, styleDataRows, styleHeaderRow, appendedRows, Table.headerRow,
    Table.rowAt, List.map_map, Function.comp]

/-- C8: the main data sheet consists of exactly the header row (the column
names, in header style: bold and filled) followed by the table's data rows
verbatim (in data style), so it has `R + 1` rows of `C` cells each. -/
theorem c8_main_data_sheet (t : Table) :
    (create_main_data_sheet t).rows.length = t.nrows + 1
    ∧ (create_main_data_sheet t).rows.head?
        = some (t.cols.map fun c => (⟨some (.str c.name), headerStyle⟩ : StyledCell))
    ∧ (create_main_data_sheet t).rows.tail
        = (List.range t.nrows).map
            (fun i => t.cols.map fun c => (⟨c.cellAt i, dataStyle⟩ : StyledCell))
    ∧ ∀ r ∈ (create_main_data_sheet t).rows, r.length = t.cols.length := by
  have h : (create_main_data_sheet t).rows
      = (t.cols.map fun c => (⟨some (.str c.name), headerStyle⟩ : StyledCell))
        :: (List.range t.nrows).map
            (fun i => t.cols.map fun c => (⟨c.cellAt i, dataStyle⟩ : StyledCell)) :=
    mainRows_expand t
  refine ⟨by simp [h], by simp [h], by simp [h], ?_⟩
  intro r hr
  rw [h] at hr
  rcases List.mem_cons.mp hr with rfl | hr
  · simp
  · obtain ⟨i, _, rfl⟩ := List.mem_map.mp hr
    simp

/-- Witness for C8 at the concrete table with header `{A, B}` and rows
`[(1, "x"), (2, "y")]`: 3 rows of 2 cells each. -/
theorem c8_main_data_sheet_witness :
    (create_main_data_sheet tAB).rows.length = 3
    ∧ ∀ r ∈ (create_main_data_sheet tAB).rows, r.length = 2 :=
  ⟨(c8_main_data_sheet tAB).1, fun r hr => (c8_main_data_sheet tAB).2.2.2 r hr⟩

/-! ### C7 -/

theorem foldl_max_eq (l : List String) (a : Nat) :
    l.foldl (fun m s => if s.length > m then s.length else m) a
      = max a ((l.map String.length).foldr max 0) := by
  induction l generalizing a with
  | nil => simp
  | cons s rest ih =>
    simp only [List.foldl_cons, List.map_cons, List.foldr_cons]
    rw [ih]
    split <;> omega

theorem foldMaxLen_eq_max (l : List String) :
    foldMaxLen l = (l.map String.length).foldr max 0 := by
  rw [foldMaxLen, foldl_max_eq]
  omega

/-- C7: on both the main data sheet and the summary sheet, every column's
assigned width is the minimum of (the length of the longest stringified cell
value in that column, header included, plus a padding of 2) and a cap; the
cap is 50 on the main data sheet and 30 on the summary sheet. -/
theorem c7_column_widths (dFn : List (Option ℚ) → String → Option ℚ)
    (t : Table) (now : String) :
    (create_main_data_sheet t).widths
      = (mainColumnsVals t).map
          (fun cells =>
            min (((cells.map pyStrDataCell).map String.length).foldr max 0 + 2) 50)
    ∧ (create_summary_sheet dFn t now).widths
      = (List.range' 1 (logMaxCol (summaryCells dFn t now))).map
          (fun cc =>
            min ((((gridColumnVals (summaryCells dFn t now) cc).map
              pyStrGapCell).map String.length).foldr max 0 + 2) 30) := by
  constructor
  · simp [create_main_data_sheet, mainWidths, foldMaxLen_eq_max]
  · simp [create_summary_sheet, summaryWidths, foldMaxLen_eq_max]

/-! ### C5 -/

/-- C5 counterexample: on a table with no numeric columns the charts sheet
is not left empty — the title cell `A1 = "Data Visualizations"` is written
unconditionally, so the claim's "no cells are written" is false. -/
theorem c5_counterexample :
    numericCols tNoNum = []
    ∧ (create_charts_sheet tNoNum).cells = [⟨1, 1, .str "Data Visualizations"⟩]
    ∧ (create_charts_sheet tNoNum).cells ≠ [] := by
  decide

/-- C5 amended: when the table has no numeric columns, or all numeric
columns have undefined (all-null) means, the charts sheet contains exactly
the title cell `A1` and no chart; no name/mean table is written. -/
theorem c5_charts_no_data (t : Table)
    (h : numericCols t = [] ∨ ∀ c ∈ numericCols t, meanOf c.numData = none) :
    create_charts_sheet t
      = { cells := [⟨1, 1, .str "Data Visualizations"⟩], charts := [] } := by
  rcases h with h | h
  · simp [create_charts_sheet, h]
  · have hcd : chartDataOf t = [] := by
      rw [chartDataOf, List.filterMap_eq_nil_iff]
      intro c hc
      rw [h c (List.mem_of_mem_take hc)]
      rfl
    unfold create_charts_sheet
    rw [hcd]
    simp

/-- Witness for the amended C5 at a concrete table with no numeric columns. -/
theorem c5_charts_no_data_witness :
    create_charts_sheet tNoNum
      = { cells := [⟨1, 1, CellVal.str "Data Visualizations"⟩], charts := [] } :=
  c5_charts_no_data tNoNum (Or.inl (by decide))

/-! ### C1 -/

theorem dedup_fold_some :
    ∀ (l : List (Option String)), (∀ x ∈ l, x.isSome) → ∀ acc : List String,
      (l.foldl (fun a v => if v ∈ a then a else a ++ [v]) (acc.map some)).length
        = ((l.filterMap id).foldl (fun a v => if v ∈ a then a else a ++ [v]) acc).length := by
  intro l
  induction l with
  | nil => intro _ acc; simp
  | cons x rest ih =>
    intro h acc
    obtain ⟨s, rfl⟩ := Option.isSome_iff_exists.mp (h x (by simp))
    have hrest : ∀ y ∈ rest, y.isSome := fun y hy => h y (by simp [hy])
    by_cases hs : s ∈ acc
    · have hms : some s ∈ acc.map some := List.mem_map_of_mem _ hs
      simp only [List.foldl_cons, List.filterMap_cons, id_eq]
      rw [if_pos hms, if_pos hs]
      exact ih hrest acc
    · have hms : some s ∉ acc.map some := by simp [hs]
      simp only [List.foldl_cons, List.filterMap_cons, id_eq]
      rw [if_neg hms, if_neg hs]
      have hmap : acc.map some ++ [some s] = (acc ++ [s]).map some := by simp
      rw [hmap]
      exact ih hrest (acc ++ [s])

theorem uniqueLen_eq_distinct (l : List (Option String)) (h : ∀ x ∈ l, x.isSome) :
    uniqueLen l = distinctNonNull l := by
  have := dedup_fold_some l h []
  simpa [uniqueLen, distinctNonNull, firstOcc] using this

theorem valueCounts_length (l : List (Option String)) :
    (valueCounts l).length = distinctNonNull l := by
  rw [valueCounts, List.length_mergeSort, List.length_map, distinctNonNull]

theorem filterMap_if_eq_filter_map {α β : Type} (p : α → Bool) (f : α → β) (l : List α) :
    l.filterMap (fun a => if p a then some (f a) else none) = (l.filter p).map f := by
  induction l with
  | nil => rfl
  | cons a rest ih =>
    by_cases hp : p a = true
    · simp [List.filterMap_cons, List.filter_cons, hp, ih]
    · simp [List.filterMap_cons, List.filter_cons, hp, ih]

/-- C1 counterexample: in `t20Null`, the single text column has exactly 20
distinct (non-null) values, yet no analysis sheet is produced: the column
also holds a null entry, `unique()` counts it (21 > 20) while
`value_counts()` does not — so "a column with exactly 20 distinct values
produces a sheet" fails. -/
theorem c1_counterexample :
    (∃ c ∈ (objectCols t20Null).take 5,
        distinctNonNull c.objData = 20 ∧ analysisKept c.objData = false)
    ∧ create_filtered_sheets t20Null = [] := by
  decide

/-- C1 amended: for a text column among the first 5 with no null entries,
an analysis sheet is produced iff its number of distinct values is between 2
and 20 inclusive; in general the produced sheets are exactly those of the
first-5 text columns passing the guard (with a null entry counting toward
the 20-cap through `unique()` but not toward the lower bound through
`value_counts()`). -/
theorem c1_analysis_condition (t : Table) (c : Col)
    (_hc : c ∈ (objectCols t).take 5) (hnn : ∀ x ∈ c.objData, x.isSome) :
    (analysisKept c.objData = true
      ↔ 2 ≤ distinctNonNull c.objData ∧ distinctNonNull c.objData ≤ 20)
    ∧ create_filtered_sheets t
        = (((objectCols t).take 5).filter (fun d => analysisKept d.objData)).map
            (fun d => analysisSheetOf t.nrows d) := by
  refine ⟨?_, ?_⟩
  · rw [analysisKept, uniqueLen_eq_distinct _ hnn, valueCounts_length]
    constructor
    · intro hkept
      by_cases h20 : distinctNonNull c.objData ≤ 20
      · rw [if_pos h20] at hkept
        by_cases h2 : 1 < distinctNonNull c.objData
        · exact ⟨by omega, h20⟩
        · rw [if_neg h2] at hkept
          exact absurd hkept (by simp)
      · rw [if_neg h20] at hkept
        exact absurd hkept (by simp)
    · rintro ⟨h2, h20⟩
      rw [if_pos h20, if_pos (by omega)]
  · rw [create_filtered_sheets, filterMap_if_eq_filter_map]

/-- Witness for the amended C1 at a concrete table whose single text column
has 3 distinct values and no nulls. -/
theorem c1_analysis_condition_witness :
    (analysisKept colW.objData = true
      ↔ 2 ≤ distinctNonNull colW.objData ∧ distinctNonNull colW.objData ≤ 20)
    ∧ create_filtered_sheets tW
        = (((objectCols tW).take 5).filter (fun d => analysisKept d.objData)).map
            (fun d => analysisSheetOf tW.nrows d) :=
  c1_analysis_condition tW colW (by decide) (by decide)

/-! ### C4 and C10 -/

theorem find?_cells_none (cells : List Cell) (r cc : Nat)
    (h : ∀ c ∈ cells, c.row ≠ r) :
    List.find? (fun x => x.row == r && x.col == cc) cells = none := by
  induction cells with
  | nil => rfl
  | cons c rest ih =>
    have hpc : (c.row == r && c.col == cc) = false := by
      have := h c (List.mem_cons_self _ _)
      simp [this]
    simp only [List.find?_cons, hpc]
    exact ih (fun d hd => h d (List.mem_cons_of_mem _ hd))

theorem colInfo_find (cols : List Col) (total r0 i : Nat) (hi : i < cols.length) :
    List.find? (fun x => x.row == r0 + i && x.col == 5) (colInfoCells r0 total cols)
      = some ⟨r0 + i, 5, .str (nullPctStr (cols.get ⟨i, hi⟩).data.nullCount total)⟩ := by
  induction cols generalizing r0 i with
  | nil => exact absurd hi (by simp)
  | cons c rest ih =>
    rw [colInfoCells]
    cases i with
    | zero =>
      simp [List.find?_cons]
    | succ n =>
      have hne : (r0 == r0 + (n + 1)) = false := by
        simp only [beq_eq_false_iff_ne]
        omega
      simp only [List.cons_append, List.nil_append, List.find?_cons, hne,
        Bool.false_and]
      have harith : r0 + (n + 1) = (r0 + 1) + n := by omega
      rw [harith]
      have hn : n < rest.length := by
        simp only [List.length_cons] at hi
        omega
      rw [ih (r0 + 1) n hn]
      simp

theorem summary_nullpct_cell (dFn : List (Option ℚ) → String → Option ℚ)
    (t : Table) (now : String) (i : Nat) (hi : i < t.cols.length) :
    cellValAt (summaryCells dFn t now) (9 + i) 5
      = some (.str (nullPctStr (t.cols.get ⟨i, hi⟩).data.nullCount t.nrows)) := by
  have hpre : List.find? (fun x => x.row == 9 + i && x.col == 5)
      (summaryPrelude t now) = none := by
    apply find?_cells_none
    intro c hc
    fin_cases hc <;> simp <;> omega
  rw [cellValAt, summaryCells, List.find?_append, List.find?_append, hpre,
    Option.none_or, colInfo_find t.cols t.nrows 9 i hi]
  rfl

/-- C4: for a table with at least one row, the summary sheet's
null-percentage cell for column `i` (cell `E{9+i}`) holds exactly the
column's null count divided by the row count, times 100, formatted to two
decimals with a trailing percent sign. -/
theorem c4_null_percentage (dFn : List (Option ℚ) → String → Option ℚ)
    (t : Table) (now : String) (i : Nat) (hi : i < t.cols.length)
    (hrows : 0 < t.nrows) :
    cellValAt (summaryCells dFn t now) (9 + i) 5
      = some (.str (fmt2Str (((t.cols.get ⟨i, hi⟩).data.nullCount : ℚ)
          / t.nrows * 100) ++ "%")) := by
  rw [summary_nullpct_cell dFn t now i hi, nullPctStr, if_neg (by omega)]

theorem roundHalfEven_intCast (m : ℤ) : roundHalfEven ((m : ℚ)) = m := by
  have hf : ((m : ℚ)).floor = m := rfl
  simp [roundHalfEven, hf]

theorem fmt2_mul100 (q : ℚ) (m : ℤ) (h : q * 100 = (m : ℚ)) (hm : 0 < m) :
    fmt2 q = fmt2core [] m.natAbs := by
  unfold fmt2
  rw [h, roundHalfEven_intCast]
  show fmt2core (if m < 0 ∨ m = 0 ∧ q < 0 then ['-'] else []) m.natAbs
    = fmt2core [] m.natAbs
  rw [if_neg ?hneg]
  case hneg =>
    rintro (h1 | ⟨h2, _⟩) <;> omega

/-- Witness for C4: a column with 0 of 5 values populated reads
`"100.00%"`. -/
theorem c4_null_percentage_witness :
    cellValAt (summaryCells dNone tAllNull "2025-08-01 00:00:00") 9 5
      = some (.str "100.00%") := by
  have h := c4_null_percentage dNone tAllNull "2025-08-01 00:00:00" 0
    (by decide) (by decide)
  refine h.trans ?_
  have hq : (((tAllNull.cols.get ⟨0, by decide⟩).data.nullCount : ℚ)
      / (tAllNull.nrows : ℚ) * 100) * 100 = ((10000 : ℤ) : ℚ) := by
    have hn : ((tAllNull.cols.get ⟨0, by decide⟩).data.nullCount) = 5 := rfl
    rw [hn]
    norm_num [tAllNull]
  rw [fmt2Str, fmt2_mul100 _ _ hq (by omega)]
  decide

/-- C10: the summary generator divides by the row count with no zero guard:
for a zero-row table every null-percentage cell holds `"nan%"` (the numpy
`0 / 0` is NaN), which is not a well-formed two-decimal percentage; with at
least one row, every null-percentage string is a well-formed two-decimal
percentage. -/
theorem c10_zero_rows_nan (dFn : List (Option ℚ) → String → Option ℚ)
    (t : Table) (now : String) (i : Nat) (hi : i < t.cols.length)
    (h0 : t.nrows = 0) :
    cellValAt (summaryCells dFn t now) (9 + i) 5 = some (.str "nan%")
    ∧ isTwoDecPct "nan%" = false
    ∧ ∀ nulls total : Nat, 0 < total → isTwoDecPct (nullPctStr nulls total) = true := by
  refine ⟨?_, by decide, ?_⟩
  · rw [summary_nullpct_cell dFn t now i hi, h0, nullPctStr, if_pos rfl]
  · intro nulls total ht
    rw [nullPctStr, if_neg (by omega)]
    exact isTwoDecPct_fmt2 _

/-- Witness for C10 at a concrete zero-row table. -/
theorem c10_zero_rows_nan_witness :
    cellValAt (summaryCells dNone tZeroRows "ts") 9 5 = some (.str "nan%") := by
  have h := (c10_zero_rows_nan dNone tZeroRows "ts" 0 (by decide) (by decide)).1
  simpa using h

/-! ### C6 -/

theorem maskTimestampCell_summary (dFn : List (Option ℚ) → String → Option ℚ)
    (t : Table) (n : String) :
    maskTimestampCell (summaryCells dFn t n)
      = maskTimestampCell (summaryCells dFn t "") := by
  simp [maskTimestampCell, summaryCells, summaryPrelude]

/-- C6: two runs of the conversion on the same table (same CSV bytes, same
encoding) produce workbooks with the same sheet names in the same order and
the same cell values and charts in every sheet, the only differences being
the summary timestamp cell `B5` and the date-bearing metadata description —
both excluded from the observable projection. -/
theorem c6_rerun_deterministic (dFn : List (Option ℚ) → String → Option ℚ)
    (path : String) (t : Table) (n1 td1 n2 td2 : String) :
    observableOf (buildWorkbook dFn path t n1 td1)
      = observableOf (buildWorkbook dFn path t n2 td2) := by
  unfold observableOf buildWorkbook
  simp only [create_summary_sheet]
  rw [maskTimestampCell_summary dFn t n1, maskTimestampCell_summary dFn t n2]
  simp [Workbook.sheetNames]

end CsvXl
